import Mathlib

/-!
Shallow embedding of `src/create_bug_tickets.py` (bugs-to-jira), a CLI tool
that reads a CSV of reported bugs and files matching rows as Jira tickets.

Network interaction is modelled by passing the remote responses (board lists,
sprint lists, issue lists, issue-type metadata) as explicit inputs, and by
returning the would-be request payloads as values.  Python exceptions are
modelled with `Except`.
-/

namespace BugsToJira

/-- The `IssueType` enum of the source: a closed set of known issue-type names. -/
inductive IssueType
  | INITIATIVE
  | EPIC
  | STORY
  | TASK
  | BUG
  | SUBTASK
  | ENG_DESIGN
  | RELEASE
  | FEATURE_FLAG
  | DESIGN
  deriving DecidableEq, Repr

/-- The `value` of each enum member (the Jira issue-type name). -/
def IssueType.value : IssueType → String
  | .INITIATIVE => "Initiative"
  | .EPIC => "Epic"
  | .STORY => "Story"
  | .TASK => "Task"
  | .BUG => "Bug"
  | .SUBTASK => "Sub-task"
  | .ENG_DESIGN => "Eng Design"
  | .RELEASE => "Release"
  | .FEATURE_FLAG => "Feature Flag"
  | .DESIGN => "Design"

/-- All members of the enum, in declaration order. -/
def IssueType.all : List IssueType :=
  [.INITIATIVE, .EPIC, .STORY, .TASK, .BUG, .SUBTASK, .ENG_DESIGN, .RELEASE,
   .FEATURE_FLAG, .DESIGN]

/-- Python `IssueType(name)`: enum lookup by value; `none` models the
`ValueError` path caught by the bare `except` in `get_issue_types`. -/
def IssueType.fromName (s : String) : Option IssueType :=
  IssueType.all.find? (fun t => t.value == s)

/-- Truthiness of a Python `str | None` argument: `None` and `""` are falsy. -/
def pyTruthy : Option String → Bool
  | none => false
  | some s => s != ""

/-- A fragment of JSON, enough for the field payloads this script builds. -/
inductive JsonVal
  | str (s : String)
  | obj (fields : List (String × JsonVal))

/-- The `data` dict built by `create_issue` (lines 143-159): an ordered list of
key/value pairs, mirroring Python dict insertion order. -/
def create_issue_fields (project_key : String) (issue_type : IssueType)
    (summary : String) (priority description parent_key epic_key sprint_id : Option String) :
    List (String × JsonVal) :=
  let data : List (String × JsonVal) :=
    [("project", .obj [("key", .str project_key)]),
     ("issuetype", .obj [("name", .str issue_type.value)]),
     ("summary", .str summary)]
  let data := match priority with
    | some p => if p != "" then data ++ [("priority", .obj [("name", .str p)])] else data
    | none => data
  let data := match description with
    | some d => if d != "" then data ++ [("description", .str d)] else data
    | none => data
  let data := match parent_key with
    | some k => if k != "" then data ++ [("customfield_10009", .str k)] else data
    | none => data
  let data := match epic_key with
    | some k => if k != "" then data ++ [("customfield_10008", .str k)] else data
    | none => data
  let data := match sprint_id with
    | some s => if s != "" then data ++ [("customfield_10010", .str s)] else data
    | none => data
  data

/-- The keys present in a field payload. -/
def payloadKeys (fields : List (String × JsonVal)) : List String :=
  fields.map Prod.fst

/-! ### Python exceptions -/

/-- The exceptions this script can raise, as far as the embedded code goes. -/
inductive PyError
  | valueError (msg : String)
  | typeError (msg : String)
  | assertionError
  deriving DecidableEq, Repr

/-! ### Board and sprint resolution -/

/-- One entry of the board-listing response `data["values"]`. -/
structure Board where
  name : String
  id : Int
  deriving DecidableEq, Repr

/-- Python `str(obj, encoding)` with a `str` object: passing an encoding demands
a bytes-like object, so `str(board["name"], board["id"])` on line 113 raises
`TypeError` for every board. -/
def pyStrDecode (_obj : String) (_encoding : Int) : Except PyError String :=
  .error (.typeError "decoding str is not supported")

/-- `get_board_id` (lines 103-120), with the board-listing response
`data["values"]` passed in as `values`. -/
def get_board_id (values : List Board) : Except PyError Int :=
  if values.length ≠ 1 then do
    let rendered ← values.mapM (fun board => pyStrDecode board.name board.id)
    let board_names := String.intercalate ", " rendered
    Except.error (.valueError
      ("Found " ++ toString values.length ++ " boards: " ++ board_names ++
       ". Try setting the --board_id option directly"))
  else
    match values with
    | [board] => .ok board.id
    | _ => .error .assertionError

/-- One entry of the sprint-listing response `data["values"]`. -/
structure Sprint where
  id : Int
  deriving DecidableEq, Repr

/-- `get_current_sprint_id` (lines 123-129); `data` is the sprint-listing
response, `none` when it has no `"values"` key.  `project_key` is the global
read by the error message on line 129. -/
def get_current_sprint_id (project_key : String) (data : Option (List Sprint)) :
    Except PyError Int :=
  match data with
  | some (v :: _) => .ok v.id
  | _ => .error (.valueError ("No active sprint found for " ++ project_key))

/-! ### Issue-type discovery -/

/-- One entry of `data["issuetypes"]` in the create-metadata response. -/
structure RemoteIssueType where
  name : String
  id : String
  deriving DecidableEq, Repr

/-- The loop body of `get_issue_types` (lines 66-71): walk the remote issue
types; a name that matches a known `IssueType` gets its Jira id recorded
(`add_jira_id`), a name that does not is reported and skipped.  Returns the
final id assignment together with the warning messages printed. -/
def discover_issue_types (entries : List RemoteIssueType)
    (jira_ids : IssueType → Option String) :
    (IssueType → Option String) × List String :=
  match entries with
  | [] => (jira_ids, [])
  | e :: rest =>
    match IssueType.fromName e.name with
    | some t =>
        discover_issue_types rest (fun t2 => if t2 = t then some e.id else jira_ids t2)
    | none =>
        let r := discover_issue_types rest jira_ids
        (r.1, (e.name ++ " is not a known IssueType value") :: r.2)

/-- `get_issue_types` (lines 63-72): runs discovery and returns
`data["issuetypes"]` unchanged. -/
def get_issue_types (entries : List RemoteIssueType)
    (jira_ids : IssueType → Option String) :
    ((IssueType → Option String) × List String) × List RemoteIssueType :=
  (discover_issue_types entries jira_ids, entries)

/-! ### Issue search -/

/-- An issue as returned by the search endpoint; `updated` stands for the
`"updated"` timestamp the sort key parses. -/
structure RemoteIssue where
  key : String
  updated : Int
  deriving DecidableEq, Repr

/-- Truthiness of a Python list-or-None argument: `None` and `[]` are falsy. -/
def pyTruthyList : Option (List String) → Bool
  | none => false
  | some l => !l.isEmpty

/-- The JQL string assembled by `get_issues` (lines 179-197).  The `statuses`
argument is modelled as the list of status values joined on line 187. -/
def build_jql (assignee project : Option String) (in_current_sprint : Bool)
    (statuses : Option (List String)) (keys : Option (List String)) : String :=
  let jql_parts : List String := []
  let jql_parts := if pyTruthy assignee then
      jql_parts ++ ["assignee=" ++ assignee.getD ""] else jql_parts
  let jql_parts := if pyTruthy project then
      jql_parts ++ ["project = " ++ project.getD ""] else jql_parts
  let jql_parts := if in_current_sprint then
      jql_parts ++ ["sprint IN openSprints()"] else jql_parts
  let jql_parts := if pyTruthyList statuses then
      jql_parts ++ ["status IN (" ++ String.intercalate ", " ((statuses.getD [])) ++ ")"]
    else jql_parts
  let jql_parts := match keys with
    | some [k] => jql_parts ++ ["issueKey = \"" ++ k ++ "\""]
    | some (k :: ks) =>
        jql_parts ++
          ["issueKey IN (" ++
           String.intercalate ", " ((k :: ks).map (fun s => "\"" ++ s ++ "\"")) ++ ")"]
    | _ => jql_parts
  String.intercalate " AND " jql_parts

/-- The sort on lines 203-205: Python `sorted` is stable and ascending in the
key, modelled by a stable insertion sort on the parsed `updated` timestamp. -/
def sort_by_updated (issues : List RemoteIssue) : List RemoteIssue :=
  List.insertionSort (fun a b => a.updated ≤ b.updated) issues

/-- `get_issues` (lines 172-205); the network is the `fetch` argument, mapping
the JQL query string to the `data["issues"]` list of the response. -/
def get_issues (assignee project : Option String) (in_current_sprint : Bool)
    (statuses : Option (List String)) (keys : Option (List String))
    (fetch : String → List RemoteIssue) : List RemoteIssue :=
  sort_by_updated (fetch (build_jql assignee project in_current_sprint statuses keys))

/-- `get_issue` (lines 166-169): key-only search, assert exactly one result,
return it. -/
def get_issue (key : String) (fetch : String → List RemoteIssue) :
    Except PyError RemoteIssue :=
  match get_issues none none false none (some [key]) fetch with
  | [issue] => .ok issue
  | _ => .error .assertionError

/-- Modelled from the spec: "`getIssue(key)` is a convenience wrapping
`searchIssues(keys=[key])`, asserting exactly one result" — the key-only
search, i.e. the search whose sole JQL clause is the issue-key equality,
result sorted ascending by last-updated. -/
def key_only_search (key : String) (fetch : String → List RemoteIssue) :
    List RemoteIssue :=
  sort_by_updated (fetch ("issueKey = \"" ++ key ++ "\""))

/-! ### CSV ingestion and filtering -/

/-- The validation errors of the `__main__` block (lines 287-291). -/
inductive CsvError
  | repeatedColumns
  | missingColumns (missing : List String)
  deriving DecidableEq, Repr

/-- `expected_cols` (lines 278-284). -/
def expected_cols : List String :=
  ["Priority", "Description of issue", "Additional notes", "Platform/URL", "Title"]

/-- Header validation (lines 285-291): drop falsy (empty) column names, reject
duplicates among the rest, then reject when a required column is absent.  The
missing set `set(expected_cols) - set(cols)` is modelled as the sublist of
`expected_cols` not present in `cols`. -/
def validate_header (header : List String) : Except CsvError Unit :=
  let cols := header.filter (fun c => c != "")
  if ¬ cols.Nodup then
    .error .repeatedColumns
  else
    let missing_cols := expected_cols.filter (fun c => ¬ c ∈ cols)
    if missing_cols ≠ [] then .error (.missingColumns missing_cols) else .ok ()

/-- A data row, restricted to the columns the driver reads. -/
structure CsvRow where
  priority : String
  description : String
  notes : String
  url : String
  title : String
  deriving DecidableEq, Repr

/-- The filter loop (lines 297-300), with the `matching_rows.append` accumulator. -/
def filter_rows_loop (requested : String) (acc : List CsvRow) :
    List CsvRow → List CsvRow
  | [] => acc
  | row :: rest =>
      filter_rows_loop requested
        (if row.priority == requested then acc ++ [row] else acc) rest

/-- The rows retained for the requested priority. -/
def matching_rows (requested : String) (rows : List CsvRow) : List CsvRow :=
  filter_rows_loop requested [] rows

/-! ### Ticket drafts and the confirmation loop -/

/-- Description composition (lines 307-314). -/
def compose_description (base notes url : String) : String :=
  let description := base
  let description :=
    if notes != "" then description ++ "\n\n**Additional notes**:\n" ++ notes
    else description
  if url != "" then description ++ "\n\n**Platform/URL**: " ++ url
  else description

/-- The `kwargs` dict built per row (lines 316-323). -/
structure TicketDraft where
  project_key : String
  issue_type : IssueType
  summary : String
  description : String
  epic_key : Option String
  sprint_id : Option String
  deriving DecidableEq, Repr

/-- Build one row's draft: summary is `row["Title"] or description`, i.e. the
title with the raw (pre-composition) description as fallback. -/
def make_draft (project_key : String) (epic sprint_id : Option String)
    (row : CsvRow) : TicketDraft :=
  { project_key := project_key
    issue_type := .BUG
    summary := if row.title != "" then row.title else row.description
    description := compose_description row.description row.notes row.url
    epic_key := epic
    sprint_id := sprint_id }

/-- Python `str.lower`, per character. -/
def pyLower (s : String) : String := ⟨s.data.map Char.toLower⟩

/-- Python `str.strip()`: whitespace removed from both ends. -/
def pyStrip (s : String) : String :=
  ⟨((s.data.dropWhile Char.isWhitespace).reverse.dropWhile Char.isWhitespace).reverse⟩

/-- Line 328: `should_create.strip().lower() in ("y", "")`. -/
def accept_response (s : String) : Bool :=
  pyLower (pyStrip s) == "y" || pyLower (pyStrip s) == ""

/-- The confirmation loop (lines 306-332): one operator response per row; an
accepted row makes one `create_issue` call (its draft is recorded) and prints
the issue URL (given by `issue_url`, abstracting the remote reply); any other
response prints "Skipping." and moves on.  Returns the drafts actually sent
and the lines printed after each prompt. -/
def confirmation_loop (project_key : String) (epic sprint_id : Option String)
    (issue_url : TicketDraft → String) :
    List CsvRow → List String → List TicketDraft × List String
  | [], _ => ([], [])
  | _, [] => ([], [])
  | row :: rows, response :: responses =>
      let rest := confirmation_loop project_key epic sprint_id issue_url rows responses
      let draft := make_draft project_key epic sprint_id row
      if accept_response response then
        (draft :: rest.1, issue_url draft :: rest.2)
      else
        (rest.1, "Skipping." :: rest.2)

/-- The CSV-driven part of `__main__` (lines 276-332): validate the header,
filter the rows, run the confirmation loop.  A validation error aborts before
any row is examined and before any ticket-creation call. -/
def main_pipeline (project_key : String) (epic sprint_id : Option String)
    (requested_priority : String) (issue_url : TicketDraft → String)
    (header : List String) (rows : List CsvRow) (responses : List String) :
    Except CsvError (List TicketDraft × List String) :=
  match validate_header header with
  | .error e => .error e
  | .ok _ =>
      .ok (confirmation_loop project_key epic sprint_id issue_url
            (matching_rows requested_priority rows) responses)

/-! ## Helper lemmas -/

/-- The contribution of one optional argument to the field payload. -/
def optPart (arg : Option String) (k : String) (f : String → JsonVal) :
    List (String × JsonVal) :=
  match arg with
  | some s => if s != "" then [(k, f s)] else []
  | none => []

theorem create_issue_fields_eq (project_key : String) (issue_type : IssueType)
    (summary : String)
    (priority description parent_key epic_key sprint_id : Option String) :
    create_issue_fields project_key issue_type summary priority description
        parent_key epic_key sprint_id =
      [("project", .obj [("key", .str project_key)]),
       ("issuetype", .obj [("name", .str issue_type.value)]),
       ("summary", .str summary)] ++
      optPart priority "priority" (fun p => .obj [("name", .str p)]) ++
      optPart description "description" (fun d => .str d) ++
      optPart parent_key "customfield_10009" (fun k => .str k) ++
      optPart epic_key "customfield_10008" (fun k => .str k) ++
      optPart sprint_id "customfield_10010" (fun s => .str s) := by
  rcases priority with _ | p <;> rcases description with _ | d <;>
    rcases parent_key with _ | pk <;> rcases epic_key with _ | ek <;>
    rcases sprint_id with _ | sp <;>
  simp only [create_issue_fields, optPart] <;> (try split_ifs) <;> simp

theorem mem_keys_optPart (arg : Option String) (k k' : String)
    (f : String → JsonVal) :
    k' ∈ payloadKeys (optPart arg k f) ↔ (pyTruthy arg = true ∧ k' = k) := by
  cases arg <;> simp only [optPart, payloadKeys, pyTruthy] <;>
    [skip; split_ifs] <;> simp_all

theorem exists_mem_optPart (arg : Option String) (k k' : String)
    (f : String → JsonVal) :
    (∃ x, (k', x) ∈ optPart arg k f) ↔ (pyTruthy arg = true ∧ k' = k) := by
  cases arg <;> simp only [optPart, pyTruthy] <;> [skip; split_ifs] <;> simp_all

/-! ## Theorems -/

/-- C1: every `create_issue` payload carries the project key, the issue type
name and the summary; the priority, description, parent-link
(customfield_10009), epic-link (customfield_10008) and sprint-link
(customfield_10010) fields are present exactly when the corresponding
argument is provided and non-empty. -/
theorem create_issue_payload_fields (project_key : String) (issue_type : IssueType)
    (summary : String)
    (priority description parent_key epic_key sprint_id : Option String) :
    ("project", JsonVal.obj [("key", .str project_key)]) ∈
        create_issue_fields project_key issue_type summary priority description
          parent_key epic_key sprint_id ∧
    ("issuetype", JsonVal.obj [("name", .str issue_type.value)]) ∈
        create_issue_fields project_key issue_type summary priority description
          parent_key epic_key sprint_id ∧
    ("summary", JsonVal.str summary) ∈
        create_issue_fields project_key issue_type summary priority description
          parent_key epic_key sprint_id ∧
    ("priority" ∈ payloadKeys (create_issue_fields project_key issue_type summary
        priority description parent_key epic_key sprint_id) ↔
      pyTruthy priority = true) ∧
    ("description" ∈ payloadKeys (create_issue_fields project_key issue_type summary
        priority description parent_key epic_key sprint_id) ↔
      pyTruthy description = true) ∧
    ("customfield_10009" ∈ payloadKeys (create_issue_fields project_key issue_type summary
        priority description parent_key epic_key sprint_id) ↔
      pyTruthy parent_key = true) ∧
    ("customfield_10008" ∈ payloadKeys (create_issue_fields project_key issue_type summary
        priority description parent_key epic_key sprint_id) ↔
      pyTruthy epic_key = true) ∧
    ("customfield_10010" ∈ payloadKeys (create_issue_fields project_key issue_type summary
        priority description parent_key epic_key sprint_id) ↔
      pyTruthy sprint_id = true) := by
  refine ⟨?_, ?_, ?_, ?_, ?_, ?_, ?_, ?_⟩ <;>
    simp [create_issue_fields_eq, payloadKeys, mem_keys_optPart, exists_mem_optPart]

theorem filter_rows_loop_eq (requested : String) (acc : List CsvRow)
    (rows : List CsvRow) :
    filter_rows_loop requested acc rows =
      acc ++ rows.filter (fun r => r.priority == requested) := by
  induction rows generalizing acc with
  | nil => simp [filter_rows_loop]
  | cons r rs ih =>
      cases h : (r.priority == requested) <;>
        simp [filter_rows_loop, h, ih, List.filter_cons]

/-- C3: the filter loop retains exactly the rows whose Priority cell equals the
requested priority, in their original order; in particular, rows with
priorities Stop ship / Nice to have / Stop ship filtered for "Stop ship" give
back the first and third rows in that order. -/
theorem priority_filter_spec (requested : String) (rows : List CsvRow) :
    matching_rows requested rows =
      rows.filter (fun r => r.priority == requested) ∧
    matching_rows "Stop ship"
        [⟨"Stop ship", "d1", "", "", "t1"⟩, ⟨"Nice to have", "d2", "", "", "t2"⟩,
         ⟨"Stop ship", "d3", "", "", "t3"⟩] =
      [⟨"Stop ship", "d1", "", "", "t1"⟩, ⟨"Stop ship", "d3", "", "", "t3"⟩] := by
  constructor
  · simpa using filter_rows_loop_eq requested [] rows
  · rfl

/-- C4: the composed ticket description is the base text, then an
"Additional notes" section exactly when the notes cell is non-empty, then a
"Platform/URL" section exactly when the URL cell is non-empty, in that order;
with both cells empty it is the base text unchanged. -/
theorem description_composition_spec (base notes url : String) :
    compose_description base notes url =
      base ++ (if notes ≠ "" then "\n\n**Additional notes**:\n" ++ notes else "") ++
        (if url ≠ "" then "\n\n**Platform/URL**: " ++ url else "") ∧
    compose_description base "" "" = base := by
  constructor
  · simp only [compose_description, bne_iff_ne, ne_eq]
    split_ifs <;> simp [String.append_assoc]
  · rfl

/-- C5: with exactly one board the board id is returned, and with zero boards a
ValueError advising --board_id is raised; but with two boards the code crashes
with a TypeError coming from `str(board["name"], board["id"])` while formatting
the message, so no candidate board names are ever listed. -/
theorem board_resolution_behavior :
    get_board_id [⟨"Board A", 1⟩, ⟨"Board B", 2⟩] =
      .error (.typeError "decoding str is not supported") ∧
    get_board_id [⟨"Board A", 1⟩] = .ok 1 ∧
    get_board_id [] =
      .error (.valueError
        "Found 0 boards: . Try setting the --board_id option directly") := by
  exact ⟨rfl, rfl, rfl⟩

/-- C6: sprint resolution returns the id of the (first) active sprint when at
least one exists, and raises the absence ValueError when the board has no
active sprints (no `values` key, or an empty list). -/
theorem sprint_resolution_spec (project_key : String) (s : Sprint)
    (rest : List Sprint) :
    get_current_sprint_id project_key (some (s :: rest)) = .ok s.id ∧
    get_current_sprint_id project_key (some []) =
      .error (.valueError ("No active sprint found for " ++ project_key)) ∧
    get_current_sprint_id project_key none =
      .error (.valueError ("No active sprint found for " ++ project_key)) := by
  exact ⟨rfl, rfl, rfl⟩

/-- C7: in the confirmation loop, an empty or affirmative response creates
exactly one ticket for that row and prints its URL; any other response prints
"Skipping." and only skips that row — the remaining rows are still processed.
The created drafts are exactly the accepted (row, response) pairs in order, and
one line is printed per prompted row. -/
theorem confirmation_loop_spec (project_key : String) (epic sprint_id : Option String)
    (issue_url : TicketDraft → String) (rows : List CsvRow)
    (responses : List String) :
    (confirmation_loop project_key epic sprint_id issue_url rows responses).1 =
      ((rows.zip responses).filter (fun p => accept_response p.2)).map
        (fun p => make_draft project_key epic sprint_id p.1) ∧
    (confirmation_loop project_key epic sprint_id issue_url rows responses).2 =
      (rows.zip responses).map (fun p =>
        if accept_response p.2 then
          issue_url (make_draft project_key epic sprint_id p.1)
        else "Skipping.") ∧
    accept_response "" = true ∧ accept_response "y" = true ∧
    accept_response " Y " = true ∧ accept_response "n" = false := by
  refine ⟨?_, ?_, by decide, by decide, by decide, by decide⟩ <;>
  · induction rows generalizing responses with
    | nil => simp [confirmation_loop]
    | cons r rs ih =>
        cases responses with
        | nil => simp [confirmation_loop]
        | cons s ss =>
            cases h : accept_response s <;>
              simp [confirmation_loop, h, ih, List.filter_cons]

theorem fromName_value {s : String} {t : IssueType}
    (h : IssueType.fromName s = some t) : t.value = s := by
  have := List.find?_some h
  simpa using this

theorem discover_issue_types_untouched (entries : List RemoteIssueType)
    (jira_ids : IssueType → Option String) (t : IssueType)
    (h : ∀ e ∈ entries, IssueType.fromName e.name ≠ some t) :
    (discover_issue_types entries jira_ids).1 t = jira_ids t := by
  induction entries generalizing jira_ids with
  | nil => rfl
  | cons e rest ih =>
      have he : IssueType.fromName e.name ≠ some t := h e (by simp)
      have hrest : ∀ e' ∈ rest, IssueType.fromName e'.name ≠ some t :=
        fun e' he' => h e' (by simp [he'])
      cases hf : IssueType.fromName e.name with
      | none => simpa [discover_issue_types, hf] using ih jira_ids hrest
      | some t' =>
          have htt : t' ≠ t := fun hEq => he (hEq ▸ hf)
          simpa [discover_issue_types, hf, Ne.symm htt] using
            ih (fun t2 => if t2 = t' then some e.id else jira_ids t2) hrest

theorem discover_issue_types_known (entries : List RemoteIssueType)
    (jira_ids : IssueType → Option String)
    (hnodup : (entries.map RemoteIssueType.name).Nodup) :
    ∀ e ∈ entries, ∀ t, IssueType.fromName e.name = some t →
      (discover_issue_types entries jira_ids).1 t = some e.id := by
  induction entries generalizing jira_ids with
  | nil => intro e he; simp at he
  | cons e0 rest ih =>
      have hnotin : e0.name ∉ rest.map RemoteIssueType.name := by
        simpa using hnodup.not_mem
      have hrest : (rest.map RemoteIssueType.name).Nodup := hnodup.of_cons
      intro e he t hf
      rcases List.mem_cons.mp he with rfl | hmem
      · -- the head entry: later entries never touch `t` again
        have hothers : ∀ e' ∈ rest, IssueType.fromName e'.name ≠ some t := by
          intro e' he' hf'
          exact hnotin (by
            have h1 := fromName_value hf
            have h2 := fromName_value hf'
            exact List.mem_map.mpr ⟨e', he', h2.symm.trans h1⟩)
        simp only [discover_issue_types, hf]
        rw [discover_issue_types_untouched rest _ t hothers]
        simp
      · cases hf0 : IssueType.fromName e0.name with
        | none => simpa [discover_issue_types, hf0] using ih _ hrest e hmem t hf
        | some t0 => simpa [discover_issue_types, hf0] using ih _ hrest e hmem t hf

theorem discover_issue_types_warns (entries : List RemoteIssueType)
    (jira_ids : IssueType → Option String) :
    ∀ e ∈ entries, IssueType.fromName e.name = none →
      (e.name ++ " is not a known IssueType value") ∈
        (discover_issue_types entries jira_ids).2 := by
  induction entries generalizing jira_ids with
  | nil => intro e he; simp at he
  | cons e0 rest ih =>
      intro e he hf
      rcases List.mem_cons.mp he with rfl | hmem
      · simp [discover_issue_types, hf]
      · cases hf0 : IssueType.fromName e0.name with
        | none => simpa [discover_issue_types, hf0] using Or.inr (ih _ e hmem hf)
        | some t0 => simpa [discover_issue_types, hf0] using ih _ e hmem hf

/-- C8: issue-type discovery attaches the tracker id to every remote entry
whose name matches a known `IssueType` value, reports every unmatched name
as a warning instead of failing, and still returns the full remote issue-type
list. -/
theorem issue_type_discovery_spec (entries : List RemoteIssueType)
    (jira_ids : IssueType → Option String)
    (hnodup : (entries.map RemoteIssueType.name).Nodup) :
    (∀ e ∈ entries, ∀ t, IssueType.fromName e.name = some t →
        (get_issue_types entries jira_ids).1.1 t = some e.id) ∧
    (∀ e ∈ entries, IssueType.fromName e.name = none →
        (e.name ++ " is not a known IssueType value") ∈
          (get_issue_types entries jira_ids).1.2) ∧
    (get_issue_types entries jira_ids).2 = entries :=
  ⟨discover_issue_types_known entries jira_ids hnodup,
   discover_issue_types_warns entries jira_ids, rfl⟩

theorem issue_type_discovery_spec_witness :
    ((([⟨"Bug", "10001"⟩, ⟨"Weird", "10099"⟩] : List RemoteIssueType).map
        RemoteIssueType.name).Nodup) ∧
    (get_issue_types [⟨"Bug", "10001"⟩, ⟨"Weird", "10099"⟩]
        (fun _ => none)).1.1 IssueType.BUG = some "10001" ∧
    ("Weird is not a known IssueType value") ∈
      (get_issue_types [⟨"Bug", "10001"⟩, ⟨"Weird", "10099"⟩]
        (fun _ => none)).1.2 := by
  have h := issue_type_discovery_spec
    [⟨"Bug", "10001"⟩, ⟨"Weird", "10099"⟩] (fun _ => none) (by decide)
  refine ⟨by decide, ?_, ?_⟩
  · exact h.1 ⟨"Bug", "10001"⟩ (by simp) IssueType.BUG rfl
  · exact h.2.1 ⟨"Weird", "10099"⟩ (by simp) rfl

/-- C9: `get_issue key` is exactly the key-only search (its JQL has the single
issue-key clause) followed by the exactly-one-result assertion: the underlying
`get_issues` call coincides with `key_only_search`, a singleton search result
is returned as the issue, and any other result count fails the assertion. -/
theorem get_issue_refines_key_only_search (key : String)
    (fetch : String → List RemoteIssue) :
    get_issues none none false none (some [key]) fetch = key_only_search key fetch ∧
    (∀ issue, key_only_search key fetch = [issue] →
      get_issue key fetch = .ok issue) ∧
    (∀ l, key_only_search key fetch = l → l.length ≠ 1 →
      get_issue key fetch = .error .assertionError) := by
  refine ⟨rfl, ?_, ?_⟩
  · intro issue h
    simp only [get_issue]
    rw [show get_issues none none false none (some [key]) fetch =
          key_only_search key fetch from rfl, h]
  · intro l hl hlen
    simp only [get_issue]
    rw [show get_issues none none false none (some [key]) fetch =
          key_only_search key fetch from rfl, hl]
    rcases l with _ | ⟨a, _ | ⟨b, t⟩⟩ <;> simp_all

theorem get_issue_refines_key_only_search_witness :
    key_only_search "DW-1" (fun _ => [⟨"DW-1", 0⟩]) = [⟨"DW-1", 0⟩] ∧
    get_issue "DW-1" (fun _ => [⟨"DW-1", 0⟩]) = .ok ⟨"DW-1", 0⟩ :=
  ⟨rfl, (get_issue_refines_key_only_search "DW-1"
    (fun _ => [⟨"DW-1", 0⟩])).2.1 ⟨"DW-1", 0⟩ rfl⟩

/-- C2 fails as stated: a header in which only the empty column name repeats
passes validation, because empty names are dropped before the duplicate check.
This header contains a duplicated column name yet the whole pipeline runs. -/
theorem csv_duplicate_empty_columns_pass :
    ¬ (["", "", "Priority", "Description of issue", "Additional notes",
        "Platform/URL", "Title"] : List String).Nodup ∧
    validate_header ["", "", "Priority", "Description of issue",
        "Additional notes", "Platform/URL", "Title"] = .ok () ∧
    main_pipeline "DW" none none "Stop ship" (fun _ => "")
        ["", "", "Priority", "Description of issue", "Additional notes",
         "Platform/URL", "Title"] [] [] = .ok ([], []) := by
  refine ⟨by decide, rfl, rfl⟩

/-- C2 (amended): a duplicated *non-empty* column name, or a missing required
column, makes the run fail with a validation error before any data row is
examined and before any ticket-creation call (the result is an error whatever
the data rows and operator responses are); when the non-empty names are
duplicate-free the error is the missing-columns error and it names every
missing required column. -/
theorem csv_validation_spec (project_key : String) (epic sprint_id : Option String)
    (requested_priority : String) (issue_url : TicketDraft → String)
    (header : List String) (rows : List CsvRow) (responses : List String)
    (hbad : ¬ (header.filter (fun c => c != "")).Nodup ∨
      ∃ c ∈ expected_cols, c ∉ header) :
    (∃ e, main_pipeline project_key epic sprint_id requested_priority issue_url
        header rows responses = .error e) ∧
    ((header.filter (fun c => c != "")).Nodup →
      ∃ missing, main_pipeline project_key epic sprint_id requested_priority
          issue_url header rows responses = .error (.missingColumns missing) ∧
        ∀ c ∈ expected_cols, c ∉ header → c ∈ missing) := by
  by_cases hnd : (header.filter (fun c => c != "")).Nodup
  · rcases hbad with hdup | ⟨c, hc, hcnot⟩
    · exact absurd hnd hdup
    · have hmem : c ∈ expected_cols.filter
          (fun c => ¬ c ∈ header.filter (fun c => c != "")) := by
        refine List.mem_filter.mpr ⟨hc, ?_⟩
        simpa using Or.inl hcnot
      have hne : expected_cols.filter
          (fun c => ¬ c ∈ header.filter (fun c => c != "")) ≠ [] :=
        List.ne_nil_of_mem hmem
      have hval : validate_header header =
          .error (.missingColumns (expected_cols.filter
            (fun c => ¬ c ∈ header.filter (fun c => c != "")))) := by
        simp only [validate_header]
        rw [if_neg (by simpa using hnd), if_pos (by simpa using hne)]
      have hmain : main_pipeline project_key epic sprint_id requested_priority
          issue_url header rows responses =
          .error (.missingColumns (expected_cols.filter
            (fun c => ¬ c ∈ header.filter (fun c => c != "")))) := by
        simp only [main_pipeline, hval]
      constructor
      · exact ⟨_, hmain⟩
      · intro _
        refine ⟨_, hmain, ?_⟩
        intro c' hc' hc'not
        refine List.mem_filter.mpr ⟨hc', ?_⟩
        simpa using Or.inl hc'not
  · have hval : validate_header header = .error .repeatedColumns := by
      simp only [validate_header]
      rw [if_pos (by simpa using hnd)]
    have hmain : main_pipeline project_key epic sprint_id requested_priority
        issue_url header rows responses = .error .repeatedColumns := by
      simp only [main_pipeline, hval]
    exact ⟨⟨_, hmain⟩, fun h => absurd h hnd⟩

theorem csv_validation_spec_witness :
    (¬ ((["Priority", "Description of issue", "Additional notes",
          "Platform/URL"] : List String).filter (fun c => c != "")).Nodup ∨
      ∃ c ∈ expected_cols,
        c ∉ ["Priority", "Description of issue", "Additional notes",
             "Platform/URL"]) ∧
    ∃ e, main_pipeline "DW" none none "Stop ship" (fun _ => "")
        ["Priority", "Description of issue", "Additional notes", "Platform/URL"]
        [] [] = .error e := by
  refine ⟨Or.inr ⟨"Title", by decide, by decide⟩, ?_⟩
  exact (csv_validation_spec "DW" none none "Stop ship" (fun _ => "")
    ["Priority", "Description of issue", "Additional notes", "Platform/URL"]
    [] [] (Or.inr ⟨"Title", by decide, by decide⟩)).1

/-- C10: header validation is oblivious to empty-name columns — validating a
header gives the same verdict as validating the header with its empty names
removed (so repeated empty names never trigger the duplicate error), the
duplicate error cannot fire once the non-empty names are duplicate-free, and
the empty string is not one of the required columns. -/
theorem empty_columns_dropped (header : List String) :
    validate_header header =
      validate_header (header.filter (fun c => c != "")) ∧
    ((header.filter (fun c => c != "")).Nodup →
      validate_header header ≠ .error .repeatedColumns) ∧
    "" ∉ expected_cols := by
  refine ⟨?_, ?_, by decide⟩
  · simp [validate_header, List.filter_filter]
  · intro hnd
    simp only [validate_header]
    rw [if_neg (by simpa using hnd)]
    split_ifs <;> simp

theorem empty_columns_dropped_witness :
    (((["", "", "Priority"] : List String).filter (fun c => c != "")).Nodup) ∧
    validate_header ["", "", "Priority"] ≠ .error .repeatedColumns :=
  ⟨by decide, (empty_columns_dropped ["", "", "Priority"]).2.1 (by decide)⟩

end BugsToJira
